import Mathlib

set_option maxRecDepth 4000

/-!
Shallow embedding of the request router and dispatch client in
`src/tools_openverse/common/request.py`.

Conventions of the embedding:
* Python exceptions become the `PyError` sum type; a function that can raise
  returns `Except PyError _`.  A value returned normally is `.ok`.
* Python `str` is `String`; `dict[str, str]`-shaped parameter mappings are
  association lists `List (String × String)` (Python dict keys are unique, so
  `List.lookup`, which takes the first binding, agrees with dict lookup).
* Parsed JSON objects are association lists `List (String × JsonVal)`.
* Machine integers do not occur; HTTP status codes are `Nat`.
-/

/-- `UsersRoutes` enum of request.py: members are the logical route names. -/
inductive UsersRoutes
  | CREATE_USER
  | GET_USER_BY_ID
  | GET_USER_BY_LOGIN
  | UPDATE_USER
  | DELETE_USER_BY_ID
  | DELETE_USER_BY_LOGIN
  | LOG_IN
  | HEALTH
  deriving DecidableEq, Repr, Fintype

/-- `.value` of each `UsersRoutes` member: its URL template string. -/
def UsersRoutes.value : UsersRoutes → String
  | .CREATE_USER => "/users/create"
  | .GET_USER_BY_ID => "/users/get/{id}"
  | .GET_USER_BY_LOGIN => "/users/login/{user_login}"
  | .UPDATE_USER => "/users/update"
  | .DELETE_USER_BY_ID => "/users/delete/{user_id}"
  | .DELETE_USER_BY_LOGIN => "/users/delete/login/{user_login}"
  | .LOG_IN => "/users/log_in"
  | .HEALTH => "/health"

/-- `.name` of each `UsersRoutes` member (the Python enum member name). -/
def UsersRoutes.enumName : UsersRoutes → String
  | .CREATE_USER => "CREATE_USER"
  | .GET_USER_BY_ID => "GET_USER_BY_ID"
  | .GET_USER_BY_LOGIN => "GET_USER_BY_LOGIN"
  | .UPDATE_USER => "UPDATE_USER"
  | .DELETE_USER_BY_ID => "DELETE_USER_BY_ID"
  | .DELETE_USER_BY_LOGIN => "DELETE_USER_BY_LOGIN"
  | .LOG_IN => "LOG_IN"
  | .HEALTH => "HEALTH"

/-- `AuthenticationRoutes` enum of request.py. -/
inductive AuthenticationRoutes
  | GET_ACCESS_TOKEN
  | GET_REFRESH_TOKEN
  | GET_USER_INFO
  deriving DecidableEq, Repr, Fintype

/-- `.value` of each `AuthenticationRoutes` member: its URL template string. -/
def AuthenticationRoutes.value : AuthenticationRoutes → String
  | .GET_ACCESS_TOKEN => "/auth/token"
  | .GET_REFRESH_TOKEN => "/auth/refresh"
  | .GET_USER_INFO => "/auth/user/info"

/-- `.name` of each `AuthenticationRoutes` member. -/
def AuthenticationRoutes.enumName : AuthenticationRoutes → String
  | .GET_ACCESS_TOKEN => "GET_ACCESS_TOKEN"
  | .GET_REFRESH_TOKEN => "GET_REFRESH_TOKEN"
  | .GET_USER_INFO => "GET_USER_INFO"

/-- `ServiceName` enum of request.py. -/
inductive ServiceName
  | USERS
  | AUTHENTICATION
  deriving DecidableEq, Repr, Fintype

/-- `.value` of each `ServiceName` member. -/
def ServiceName.value : ServiceName → String
  | .USERS => "USERS"
  | .AUTHENTICATION => "AUTHENTICATION"

/-- `HttpMethods` enum of request.py. -/
inductive HttpMethods
  | GET
  | POST
  | PUT
  | DELETE
  | PATCH
  deriving DecidableEq, Repr, Fintype

/-- `.value` of each `HttpMethods` member. -/
def HttpMethods.value : HttpMethods → String
  | .GET => "GET"
  | .POST => "POST"
  | .PUT => "PUT"
  | .DELETE => "DELETE"
  | .PATCH => "PATCH"

/-- A strongly-typed route instance: a member of `UsersRoutes` or of
`AuthenticationRoutes` (the two enum branches of `RoutesTypes`). -/
inductive TypedRoute
  | users (r : UsersRoutes)
  | auth (r : AuthenticationRoutes)
  deriving DecidableEq, Repr, Fintype

/-- Template string (`.value`) of a typed route. -/
def TypedRoute.value : TypedRoute → String
  | .users r => r.value
  | .auth r => r.value

/-- Enum member name (`.name`) of a typed route. -/
def TypedRoute.enumName : TypedRoute → String
  | .users r => r.enumName
  | .auth r => r.enumName

/-- The `RoutesTypes` union of request.py: either a typed enum member or a raw
string key (the `RoutesNamespaceTypes` string literals, or any string). -/
inductive RouteArg
  | typed (r : TypedRoute)
  | raw (s : String)
  deriving DecidableEq, Repr

/-- The `_HttpRoutesMethods` enum of request.py as a finite map from route
member name to the single allowed HTTP verb string.  `getattr` on the Python
enum class succeeds exactly on these member names. -/
def httpRoutesMethods (n : String) : Option String :=
  [("CREATE_USER", "POST"),
   ("GET_USER_BY_ID", "GET"),
   ("GET_USER_BY_LOGIN", "GET"),
   ("UPDATE_USER", "PUT"),
   ("DELETE_USER_BY_ID", "DELETE"),
   ("DELETE_USER_BY_LOGIN", "DELETE"),
   ("HEALTH", "GET"),
   ("LOG_IN", "POST"),
   ("GET_ACCESS_TOKEN", "GET"),
   ("GET_REFRESH_TOKEN", "GET"),
   ("GET_USER_INFO", "GET")].lookup n

/-- Python exceptions that the embedded code can raise.
`valueError` models `ValueError`, `attributeError` models an `AttributeError`
escaping from `getattr` (carrying the missing attribute name),
`baseRequestException` models `BaseRequestException(message, status_code)`,
and `validationError` models a pydantic-v2 `ValidationError` escaping from a
response-model constructor (carrying the name of the rejected field). -/
inductive PyError
  | valueError (msg : String)
  | attributeError (missing : String)
  | baseRequestException (msg : String) (status_code : Nat)
  | validationError (field : String)
  deriving DecidableEq, Repr

/-- Single quote character, used when rendering Python `KeyError` text. -/
def pySquote : String := "\x27"

/-- Decidable equality for `Except`, needed to decide statements about the
embedded functions by evaluation. -/
instance {ε α : Type} [DecidableEq ε] [DecidableEq α] : DecidableEq (Except ε α) := fun a b =>
  match a, b with
  | .ok x, .ok y =>
      if h : x = y then .isTrue (by rw [h]) else .isFalse (by intro hc; cases hc; exact h rfl)
  | .error x, .error y =>
      if h : x = y then .isTrue (by rw [h]) else .isFalse (by intro hc; cases hc; exact h rfl)
  | .ok _, .error _ => .isFalse (by intro hc; cases hc)
  | .error _, .ok _ => .isFalse (by intro hc; cases hc)

/-- The message of the `ValueError` raised by `validate_http_method` on a
method mismatch (lines 254-263 of request.py). -/
def mismatchMsg (routeNameStr gotVerb expectedVerb : String) : String :=
  "Invalid HTTP method " ++ gotVerb ++ " for route " ++ routeNameStr ++
    ". Expected: " ++ expectedVerb

/--
`SetRequest.validate_http_method` (request.py lines 223-275).

* For an enum route the lookup key is the member `.name`; for a raw string the
  string itself.
* `getattr(_HttpRoutesMethods, route_name_str)` raises `AttributeError` when
  the name is not a member.  The surrounding handler catches only `KeyError`,
  so that `AttributeError` escapes uncaught; this is modelled by the
  `.attributeError` outcome.
* On a verb mismatch a `ValueError` with `mismatchMsg` is raised.
-/
def validate_http_method (route_name : RouteArg) (route_method : HttpMethods) :
    Except PyError Unit :=
  let route_name_str :=
    match route_name with
    | .typed t => t.enumName
    | .raw s => s
  match httpRoutesMethods route_name_str with
  | none => .error (.attributeError route_name_str)
  | some expected_method =>
      if expected_method ≠ route_method.value then
        .error (.valueError (mismatchMsg route_name_str route_method.value expected_method))
      else
        .ok ()

/-- The verb recorded in the catalog for each typed route, as an
`HttpMethods` member (readable form of the `_HttpRoutesMethods` table). -/
def catalogVerb : TypedRoute → HttpMethods
  | .users .CREATE_USER => .POST
  | .users .GET_USER_BY_ID => .GET
  | .users .GET_USER_BY_LOGIN => .GET
  | .users .UPDATE_USER => .PUT
  | .users .DELETE_USER_BY_ID => .DELETE
  | .users .DELETE_USER_BY_LOGIN => .DELETE
  | .users .LOG_IN => .POST
  | .users .HEALTH => .GET
  | .auth .GET_ACCESS_TOKEN => .GET
  | .auth .GET_REFRESH_TOKEN => .GET
  | .auth .GET_USER_INFO => .GET

/-- C6: for every route in the catalog and every HTTP verb,
`validate_http_method` succeeds iff the verb equals the verb recorded for the
route in `_HttpRoutesMethods` (hence exactly one of the five verbs passes for
each route), and every other verb fails with a `ValueError` whose message
names both the supplied and the expected verb. -/
theorem claim_C6_validate_iff_catalog_verb :
    ∀ (r : TypedRoute) (v : HttpMethods),
      (validate_http_method (.typed r) v = .ok () ↔ v = catalogVerb r) ∧
      (v ≠ catalogVerb r →
        validate_http_method (.typed r) v =
          .error (.valueError (mismatchMsg r.enumName v.value (catalogVerb r).value))) := by
  decide

/-- C6 witness: concrete instances — POST passes for CREATE_USER, and GET on
CREATE_USER fails with the message naming GET and POST. -/
theorem claim_C6_witness :
    (validate_http_method (.typed (.users .CREATE_USER)) .POST = .ok () ↔
      HttpMethods.POST = catalogVerb (.users .CREATE_USER)) ∧
    validate_http_method (.typed (.users .CREATE_USER)) .GET =
      .error (.valueError (mismatchMsg "CREATE_USER" "GET" "POST")) :=
  ⟨(claim_C6_validate_iff_catalog_verb (.users .CREATE_USER) .POST).1,
   (claim_C6_validate_iff_catalog_verb (.users .CREATE_USER) .GET).2 (by decide)⟩

/-- C4: evaluating `validate_http_method` at a route-key string with no verb
recorded in `_HttpRoutesMethods`.  The call fails with an uncaught
`AttributeError` from `getattr` (the `except KeyError` handler at lines
267-275, which would raise the typed `ValueError` naming the route, never
fires because `getattr` raises `AttributeError`, not `KeyError`). -/
theorem claim_C4_unknown_route_attribute_error :
    validate_http_method (.raw "NO_SUCH_ROUTE") .GET =
      .error (.attributeError "NO_SUCH_ROUTE") := by
  rfl

/-- A token of a parsed Python format template: a literal character or a
named placeholder `\x7bname\x7d`. -/
inductive Tok
  | lit (c : Char)
  | hole (nm : String)
  deriving DecidableEq, Repr

/-- Parser for Python format templates restricted to plain named placeholders
(the only form the catalog templates use).  `fuel` bounds recursion; each step
consumes at least one character, so `s.length` fuel parses all of `s`. -/
def parseToks : Nat → List Char → List Tok
  | 0, _ => []
  | _ + 1, [] => []
  | fuel + 1, c :: rest =>
      if c = '{' then
        let nm := rest.takeWhile (fun d => d != '}')
        let rest2 := (rest.dropWhile (fun d => d != '}')).drop 1
        .hole (String.mk nm) :: parseToks fuel rest2
      else
        .lit c :: parseToks fuel rest

/-- Renders a token list, substituting each placeholder from the parameter
mapping.  A placeholder with no binding yields `.error name`, matching the
`KeyError(name)` that `str.format(**params)` raises on the first missing key. -/
def renderToks : List Tok → List (String × String) → Except String (List Char)
  | [], _ => .ok []
  | .lit c :: rest, ps => (renderToks rest ps).map (fun out => c :: out)
  | .hole n :: rest, ps =>
      match ps.lookup n with
      | none => .error n
      | some v => (renderToks rest ps).map (fun out => v.toList ++ out)

/-- Python `template.format(**params)` for plain named placeholders:
`.ok` with the substituted string, or `.error key` for `KeyError(key)`. -/
def pyFormat (s : String) (ps : List (String × String)) : Except String String :=
  (renderToks (parseToks s.length s.toList) ps).map String.mk

/-- The placeholder names of a template, in order of appearance. -/
def placeholders (s : String) : List String :=
  (parseToks s.length s.toList).filterMap fun t =>
    match t with
    | .hole n => some n
    | .lit _ => none

/-- A string containing no brace characters. -/
def noBraces (s : String) : Bool :=
  s.toList.all (fun c => c != '{' && c != '}')

/-- The `service` argument of `RoutesNamespace.get_route`: a `ServiceName`
member or a raw string. -/
inductive ServiceArg
  | enum (s : ServiceName)
  | str (s : String)
  deriving DecidableEq, Repr

/-- ASCII uppercase of one character (what Python `str.upper` does on the
ASCII service names involved here). -/
def pyUpperChar (c : Char) : Char :=
  if 97 ≤ c.toNat ∧ c.toNat ≤ 122 then Char.ofNat (c.toNat - 32) else c

/-- ASCII `str.upper()`. -/
def pyUpper (s : String) : String :=
  String.mk (s.toList.map pyUpperChar)

/-- `service.value.upper() if isinstance(service, ServiceName) else
service.upper()` (request.py lines 111-115). -/
def ServiceArg.upperValue : ServiceArg → String
  | .enum s => pyUpper s.value
  | .str s => pyUpper s

/-- How the service argument prints inside the unknown-service message. -/
def ServiceArg.display : ServiceArg → String
  | .enum s => s.value
  | .str s => s

/-- `getattr(RoutesNamespace, service_value, None)`: the class has exactly the
two route-table attributes `USERS` and `AUTHENTICATION`. -/
def routesNamespaceAttr (s : String) : Option ServiceName :=
  if s = "USERS" then some .USERS
  else if s = "AUTHENTICATION" then some .AUTHENTICATION
  else none

/-- Name-based member lookup `UsersRoutes[key]` (Python `Enum.__getitem__`). -/
def usersByName (n : String) : Option UsersRoutes :=
  [("CREATE_USER", UsersRoutes.CREATE_USER),
   ("GET_USER_BY_ID", UsersRoutes.GET_USER_BY_ID),
   ("GET_USER_BY_LOGIN", UsersRoutes.GET_USER_BY_LOGIN),
   ("UPDATE_USER", UsersRoutes.UPDATE_USER),
   ("DELETE_USER_BY_ID", UsersRoutes.DELETE_USER_BY_ID),
   ("DELETE_USER_BY_LOGIN", UsersRoutes.DELETE_USER_BY_LOGIN),
   ("LOG_IN", UsersRoutes.LOG_IN),
   ("HEALTH", UsersRoutes.HEALTH)].lookup n

/-- Name-based member lookup `AuthenticationRoutes[key]`. -/
def authByName (n : String) : Option AuthenticationRoutes :=
  [("GET_ACCESS_TOKEN", AuthenticationRoutes.GET_ACCESS_TOKEN),
   ("GET_REFRESH_TOKEN", AuthenticationRoutes.GET_REFRESH_TOKEN),
   ("GET_USER_INFO", AuthenticationRoutes.GET_USER_INFO)].lookup n

/-- `route_service[route_name].value` for a raw string key: the template of
the named member of the given route table, if any. -/
def serviceRouteByName (svc : ServiceName) (n : String) : Option String :=
  match svc with
  | .USERS => (usersByName n).map UsersRoutes.value
  | .AUTHENTICATION => (authByName n).map AuthenticationRoutes.value

/-- Python truthiness of the optional params dict: `None` and the empty dict
are falsy. -/
def paramsTruthy (p : Option (List (String × String))) : Bool :=
  match p with
  | none => false
  | some l => !l.isEmpty

/-- The message of the `ValueError` raised by the `except KeyError` handler of
`get_route` (line 150): `str(KeyError(k))` renders the key in single quotes. -/
def missingKeyMsg (k : String) : String :=
  "Unknown attribute or incorrect format: " ++ pySquote ++ k ++ pySquote

/--
`RoutesNamespace.get_route` (request.py lines 84-152).

* The service string is uppercased and looked up among the class attributes;
  a miss raises `ValueError("Unknown service: ...")`.
* A typed enum route contributes its own `.value` template directly, with no
  check that it belongs to the given service; a raw string key is looked up by
  name in the service route table, and a miss raises `KeyError`, which the
  `except KeyError` handler converts to `ValueError(missingKeyMsg key)`.
* If the template contains both braces, falsy `params` raises
  `ValueError("Missing parameters for route")`, otherwise the template is
  formatted; a missing format key raises `KeyError`, converted by the same
  handler to `ValueError(missingKeyMsg key)`.
-/
def get_route (service : ServiceArg) (route_name : RouteArg)
    (params : Option (List (String × String))) : Except PyError String :=
  match routesNamespaceAttr service.upperValue with
  | none => .error (.valueError ("Unknown service: " ++ service.display))
  | some route_service =>
      let templ : Except PyError String :=
        match route_name with
        | .typed t => .ok t.value
        | .raw s =>
            match serviceRouteByName route_service s with
            | none => .error (.valueError (missingKeyMsg s))
            | some v => .ok v
      match templ with
      | .error e => .error e
      | .ok route =>
          if route.toList.contains '{' && route.toList.contains '}' then
            if paramsTruthy params = false then
              .error (.valueError "Missing parameters for route")
            else
              match pyFormat route (params.getD []) with
              | .error k => .error (.valueError (missingKeyMsg k))
              | .ok s => .ok s
          else
            .ok route

/-- The route-table attribute found for an enum service argument is the
service itself. -/
lemma routesNamespaceAttr_enum (svc : ServiceName) :
    routesNamespaceAttr (ServiceArg.enum svc).upperValue = some svc := by
  cases svc <;> rfl

/-- C5 counterexample: `AUTHENTICATION`-scoped route `GET_ACCESS_TOKEN` is not
a route of the `USERS` service (its name is absent from the `USERS` table),
yet `get_route(USERS, GET_ACCESS_TOKEN)` succeeds with the auth template
instead of failing with an unknown-route fault: typed enum route arguments
are never checked for membership in the given service. -/
theorem claim_C5_counterexample :
    usersByName "GET_ACCESS_TOKEN" = none ∧
    get_route (.enum .USERS) (.typed (.auth .GET_ACCESS_TOKEN)) none =
      .ok "/auth/token" := by
  constructor
  · rfl
  · rfl

/-- C5 amended: an unknown service string always fails with the
unknown-service `ValueError`; a raw string key unknown within a known service
always fails with the `ValueError` produced from the `KeyError` of the table
lookup (naming the key); but a typed enum route argument is never validated
against the service: `get_route` behaves identically for it under every
service. -/
theorem claim_C5_amended :
    (∀ s : String, routesNamespaceAttr (pyUpper s) = none →
      ∀ (rt : RouteArg) (p : Option (List (String × String))),
        get_route (.str s) rt p =
          .error (.valueError ("Unknown service: " ++ s))) ∧
    (∀ (svc : ServiceName) (key : String) (p : Option (List (String × String))),
      serviceRouteByName svc key = none →
        get_route (.enum svc) (.raw key) p =
          .error (.valueError (missingKeyMsg key))) ∧
    (∀ (svc svc2 : ServiceName) (t : TypedRoute) (p : Option (List (String × String))),
      get_route (.enum svc) (.typed t) p = get_route (.enum svc2) (.typed t) p) := by
  refine ⟨?_, ?_, ?_⟩
  · intro s h rt p
    simp only [get_route, ServiceArg.upperValue, ServiceArg.display, h]
  · intro svc key p h
    simp only [get_route, routesNamespaceAttr_enum, h]
  · intro svc svc2 t p
    cases svc <;> cases svc2 <;> rfl

/-- C5 witness: concrete instances of the amended claim — the unknown service
string `billing` fails with the unknown-service fault, and the misspelled raw
key `CREATE_USR` under the known `USERS` service fails with the fault naming
the key. -/
theorem claim_C5_witness :
    get_route (.str "billing") (.raw "X") none =
      .error (.valueError ("Unknown service: billing")) ∧
    get_route (.enum .USERS) (.raw "CREATE_USR") none =
      .error (.valueError (missingKeyMsg "CREATE_USR")) :=
  ⟨claim_C5_amended.1 "billing" (by decide) (.raw "X") none,
   claim_C5_amended.2.1 .USERS "CREATE_USR" none (by decide)⟩

/-- A key found by `List.lookup` is a binding of the list. -/
lemma lookup_mem : ∀ (ps : List (String × String)) (n v : String),
    ps.lookup n = some v → (n, v) ∈ ps := by
  intro ps
  induction ps with
  | nil => intro n v h; simp [List.lookup] at h
  | cons kv rest ih =>
      obtain ⟨k1, v1⟩ := kv
      intro n v h
      by_cases hk : n = k1
      · subst hk
        simp [List.lookup] at h
        subst h
        exact List.mem_cons_self _ _
      · have hb : (n == k1) = false := by simp [hk]
        simp [List.lookup, hb] at h
        exact List.mem_cons_of_mem _ (ih n v h)

/-- If rendering fails with key `k`, then `k` is a placeholder of the token
list with no binding in the parameters. -/
lemma renderToks_error_spec : ∀ (toks : List Tok) (ps : List (String × String)) (k : String),
    renderToks toks ps = .error k → Tok.hole k ∈ toks ∧ ps.lookup k = none := by
  intro toks
  induction toks with
  | nil => intro ps k h; simp [renderToks] at h
  | cons t rest ih =>
      intro ps k h
      cases t with
      | lit c =>
          rw [renderToks] at h
          cases hr : renderToks rest ps with
          | ok out => rw [hr] at h; simp [Except.map] at h
          | error e =>
              rw [hr] at h
              simp [Except.map] at h
              rw [← h]
              exact ⟨List.mem_cons_of_mem _ (ih ps e hr).1, (ih ps e hr).2⟩
      | hole n =>
          rw [renderToks] at h
          cases hl : ps.lookup n with
          | none =>
              rw [hl] at h
              cases h
              exact ⟨List.mem_cons_self _ _, hl⟩
          | some v =>
              rw [hl] at h
              cases hr : renderToks rest ps with
              | ok out => rw [hr] at h; simp [Except.map] at h
              | error e =>
                  rw [hr] at h
                  simp [Except.map] at h
                  rw [← h]
                  exact ⟨List.mem_cons_of_mem _ (ih ps e hr).1, (ih ps e hr).2⟩

/-- If some placeholder of the token list has no binding, rendering fails. -/
lemma renderToks_missing : ∀ (toks : List Tok) (ps : List (String × String)),
    (∃ n, Tok.hole n ∈ toks ∧ ps.lookup n = none) →
    ∃ k, renderToks toks ps = .error k := by
  intro toks
  induction toks with
  | nil => intro ps h; obtain ⟨n, hn, _⟩ := h; simp at hn
  | cons t rest ih =>
      intro ps h
      obtain ⟨n, hn, hl⟩ := h
      cases t with
      | lit c =>
          have hn' : Tok.hole n ∈ rest := by
            cases hn with
            | tail _ h => exact h
          obtain ⟨k, hk⟩ := ih ps ⟨n, hn', hl⟩
          refine ⟨k, ?_⟩
          rw [renderToks, hk]
          rfl
      | hole m =>
          cases hm : ps.lookup m with
          | none => exact ⟨m, by rw [renderToks, hm]⟩
          | some v =>
              have hn' : Tok.hole n ∈ rest := by
                cases hn with
                | head =>
                    rw [hl] at hm
                    cases hm
                | tail _ h => exact h
              obtain ⟨k, hk⟩ := ih ps ⟨n, hn', hl⟩
              refine ⟨k, ?_⟩
              rw [renderToks, hm, hk]
              rfl

/-- If every placeholder of the token list has a binding, rendering succeeds. -/
lemma renderToks_ok_of_bound : ∀ (toks : List Tok) (ps : List (String × String)),
    (∀ n, Tok.hole n ∈ toks → (ps.lookup n).isSome = true) →
    ∃ out, renderToks toks ps = .ok out := by
  intro toks
  induction toks with
  | nil => intro ps _; exact ⟨[], rfl⟩
  | cons t rest ih =>
      intro ps h
      cases t with
      | lit c =>
          obtain ⟨out, hout⟩ := ih ps (fun n hn => h n (List.mem_cons_of_mem _ hn))
          exact ⟨c :: out, by rw [renderToks, hout]; rfl⟩
      | hole m =>
          have hm := h m (List.mem_cons_self _ _)
          cases hl : ps.lookup m with
          | none => rw [hl] at hm; cases hm
          | some v =>
              obtain ⟨out, hout⟩ := ih ps (fun n hn => h n (List.mem_cons_of_mem _ hn))
              exact ⟨v.toList ++ out, by rw [renderToks, hl, hout]; rfl⟩

/-- Literal tokens free of braces (holds for every catalog template). -/
def litOk (t : Tok) : Bool :=
  match t with
  | .lit c => c != '{' && c != '}'
  | .hole _ => true

/-- Rendering a token list whose literals are brace-free with brace-free
substitution values yields a brace-free result. -/
lemma renderToks_noBraces : ∀ (toks : List Tok) (ps : List (String × String)) (out : List Char),
    renderToks toks ps = .ok out →
    toks.all litOk = true →
    (∀ n v, ps.lookup n = some v → (v.toList.all (fun c => c != '{' && c != '}')) = true) →
    out.all (fun c => c != '{' && c != '}') = true := by
  intro toks
  induction toks with
  | nil =>
      intro ps out h _ _
      cases h
      rfl
  | cons t rest ih =>
      intro ps out h hall hvals
      rw [List.all_cons, Bool.and_eq_true] at hall
      cases t with
      | lit c =>
          rw [renderToks] at h
          cases hr : renderToks rest ps with
          | error e => rw [hr] at h; simp [Except.map] at h
          | ok out' =>
              rw [hr] at h
              simp [Except.map] at h
              rw [← h, List.all_cons, Bool.and_eq_true]
              exact ⟨hall.1, ih ps out' hr hall.2 hvals⟩
      | hole m =>
          rw [renderToks] at h
          cases hl : ps.lookup m with
          | none => rw [hl] at h; cases h
          | some v =>
              rw [hl] at h
              cases hr : renderToks rest ps with
              | error e => rw [hr] at h; simp [Except.map] at h
              | ok out' =>
                  rw [hr] at h
                  simp [Except.map] at h
                  rw [← h, List.all_append, Bool.and_eq_true]
                  exact ⟨hvals m v hl, ih ps out' hr hall.2 hvals⟩

/-- Membership in `placeholders` coincides with hole membership in the parsed
token list. -/
lemma mem_placeholders (s n : String) :
    n ∈ placeholders s ↔ Tok.hole n ∈ parseToks s.length s.toList := by
  rw [placeholders, List.mem_filterMap]
  constructor
  · rintro ⟨t, ht, hf⟩
    cases t with
    | lit c => simp at hf
    | hole m =>
        simp at hf
        subst hf
        exact ht
  · intro h
    exact ⟨.hole n, h, rfl⟩

/-- For an enum service argument and a typed route, `get_route` reduces to the
template-formatting stage; no membership check of the route in the service
occurs. -/
lemma get_route_typed_eval (svc : ServiceName) (t : TypedRoute)
    (p : Option (List (String × String))) :
    get_route (.enum svc) (.typed t) p =
      if t.value.toList.contains '{' && t.value.toList.contains '}' then
        if paramsTruthy p = false then
          .error (.valueError "Missing parameters for route")
        else
          match pyFormat t.value (p.getD []) with
          | .error k => .error (.valueError (missingKeyMsg k))
          | .ok s => .ok s
      else .ok t.value := by
  cases svc <;> rfl

/-- Core of claim C7, for any typed route whose template contains braces and
whose parsed literal characters are brace-free (checked per template). -/
lemma claim_C7_core (svc : ServiceName) (t : TypedRoute)
    (hb : (t.value.toList.contains '{' && t.value.toList.contains '}') = true)
    (hlits : (parseToks t.value.length t.value.toList).all litOk = true) :
    (∀ p, paramsTruthy p = false →
      get_route (.enum svc) (.typed t) p =
        .error (.valueError "Missing parameters for route")) ∧
    (∀ ps : List (String × String), ps ≠ [] →
      (∃ n, n ∈ placeholders t.value ∧ ps.lookup n = none) →
      ∃ k, k ∈ placeholders t.value ∧ ps.lookup k = none ∧
        get_route (.enum svc) (.typed t) (some ps) =
          .error (.valueError (missingKeyMsg k))) ∧
    (∀ ps : List (String × String), ps ≠ [] →
      (∀ n, n ∈ placeholders t.value → (ps.lookup n).isSome = true) →
      (∀ kv, kv ∈ ps → noBraces kv.2 = true) →
      ∃ out, get_route (.enum svc) (.typed t) (some ps) = .ok out ∧
        noBraces out = true) := by
  refine ⟨?_, ?_, ?_⟩
  · intro p hp
    rw [get_route_typed_eval, if_pos hb, if_pos hp]
  · intro ps hps hmiss
    have hpt : paramsTruthy (some ps) = true := by
      cases ps with
      | nil => exact absurd rfl hps
      | cons a l => rfl
    obtain ⟨n, hn, hlook⟩ := hmiss
    have htok : Tok.hole n ∈ parseToks t.value.length t.value.toList :=
      (mem_placeholders _ _).mp hn
    obtain ⟨k, hk⟩ := renderToks_missing _ ps ⟨n, htok, hlook⟩
    obtain ⟨hkmem, hklook⟩ := renderToks_error_spec _ ps k hk
    refine ⟨k, (mem_placeholders _ _).mpr hkmem, hklook, ?_⟩
    rw [get_route_typed_eval, if_pos hb, if_neg (by simp [hpt])]
    simp only [Option.getD]
    have hpf : pyFormat t.value ps = .error k := by
      rw [pyFormat, hk]
      rfl
    rw [hpf]
  · intro ps hps hbound hvals
    have hpt : paramsTruthy (some ps) = true := by
      cases ps with
      | nil => exact absurd rfl hps
      | cons a l => rfl
    obtain ⟨out, hout⟩ := renderToks_ok_of_bound (parseToks t.value.length t.value.toList) ps
      (fun n hn => hbound n ((mem_placeholders _ _).mpr hn))
    have hvals' : ∀ n v, ps.lookup n = some v →
        (v.toList.all (fun c => c != '{' && c != '}')) = true := by
      intro n v hl
      exact hvals (n, v) (lookup_mem ps n v hl)
    have hnb := renderToks_noBraces _ ps out hout hlits hvals'
    refine ⟨String.mk out, ?_, ?_⟩
    · rw [get_route_typed_eval, if_pos hb, if_neg (by simp [hpt])]
      simp only [Option.getD]
      have hpf : pyFormat t.value ps = .ok (String.mk out) := by
        rw [pyFormat, hout]
        rfl
      rw [hpf]
    · exact hnb

/-- C7: for every known service and every catalog route whose template
contains a placeholder, `get_route` fails with the missing-parameters
`ValueError` when params is absent or empty; fails with the `ValueError`
naming an absent placeholder key when params is non-empty but lacks one; and
returns a path free of braces when every placeholder is bound (to brace-free
values). -/
theorem claim_C7_placeholder_substitution :
    ∀ (svc : ServiceName) (t : TypedRoute),
      (t.value.toList.contains '{' && t.value.toList.contains '}') = true →
      (∀ p, paramsTruthy p = false →
        get_route (.enum svc) (.typed t) p =
          .error (.valueError "Missing parameters for route")) ∧
      (∀ ps : List (String × String), ps ≠ [] →
        (∃ n, n ∈ placeholders t.value ∧ ps.lookup n = none) →
        ∃ k, k ∈ placeholders t.value ∧ ps.lookup k = none ∧
          get_route (.enum svc) (.typed t) (some ps) =
            .error (.valueError (missingKeyMsg k))) ∧
      (∀ ps : List (String × String), ps ≠ [] →
        (∀ n, n ∈ placeholders t.value → (ps.lookup n).isSome = true) →
        (∀ kv, kv ∈ ps → noBraces kv.2 = true) →
        ∃ out, get_route (.enum svc) (.typed t) (some ps) = .ok out ∧
          noBraces out = true) := by
  intro svc t hb
  cases t with
  | users r =>
      cases r with
      | CREATE_USER => exact absurd hb (by decide)
      | GET_USER_BY_ID => exact claim_C7_core svc _ hb (by decide)
      | GET_USER_BY_LOGIN => exact claim_C7_core svc _ hb (by decide)
      | UPDATE_USER => exact absurd hb (by decide)
      | DELETE_USER_BY_ID => exact claim_C7_core svc _ hb (by decide)
      | DELETE_USER_BY_LOGIN => exact claim_C7_core svc _ hb (by decide)
      | LOG_IN => exact absurd hb (by decide)
      | HEALTH => exact absurd hb (by decide)
  | auth r => cases r <;> exact absurd hb (by decide)

/-- C7 witness: the `GET_USER_BY_ID` template under `USERS` — empty params
fail, params lacking `id` fail naming the absent key, and params binding `id`
yield a brace-free path. -/
theorem claim_C7_witness :
    get_route (.enum .USERS) (.typed (.users .GET_USER_BY_ID)) none =
      .error (.valueError "Missing parameters for route") ∧
    (∃ k, k ∈ placeholders (TypedRoute.users .GET_USER_BY_ID).value ∧
      ([("x", "1")] : List (String × String)).lookup k = none ∧
      get_route (.enum .USERS) (.typed (.users .GET_USER_BY_ID)) (some [("x", "1")]) =
        .error (.valueError (missingKeyMsg k))) ∧
    (∃ out, get_route (.enum .USERS) (.typed (.users .GET_USER_BY_ID))
        (some [("id", "42")]) = .ok out ∧ noBraces out = true) :=
  ⟨(claim_C7_placeholder_substitution .USERS (.users .GET_USER_BY_ID) (by decide)).1
      none rfl,
   (claim_C7_placeholder_substitution .USERS (.users .GET_USER_BY_ID) (by decide)).2.1
      [("x", "1")] (by decide) ⟨"id", by decide, rfl⟩,
   (claim_C7_placeholder_substitution .USERS (.users .GET_USER_BY_ID) (by decide)).2.2
      [("id", "42")] (by decide) (by decide) (by decide)⟩

/-- JSON values as returned by `response.json()`, in the shapes the dispatch
client inspects (scalars and objects). -/
inductive JsonVal
  | null
  | str (s : String)
  | num (n : Int)
  | bool (b : Bool)
  | obj (fields : List (String × JsonVal))
  deriving Repr

/-- Python truthiness of a JSON value: `None`, the empty string, zero and the
empty mapping are falsy. -/
def JsonVal.truthy : JsonVal → Bool
  | .null => false
  | .str s => !s.toList.isEmpty
  | .num n => n != 0
  | .bool b => b
  | .obj l => !l.isEmpty

/-- The `SuccessResponse | ErrorResponse` union of types.py: `success` carries
the payload dict, the success flag and the status code; `err` carries the
error message and the status code.  `ErrorResponse.error` is declared as a
pydantic-v2 `str` field (types.py line 127), so a constructed `err` value can
only hold a string: passing a non-string raises `ValidationError` at
construction instead of producing a value of this type. -/
inductive JSONResponseTypes
  | success (detail : List (String × JsonVal)) (success_flag : Bool) (status_code : Nat)
  | err (error : String) (status_code : Nat)
  deriving Repr

/--
Response normalization stage of `send_request` (request.py lines 436-480),
applied to the HTTP status code and the result of parsing the body as a JSON
object.

* A body parse failure raises `BaseRequestException` carrying the original
  status code (lines 439-444).
* `"detail" in result and result["detail"]` truthy reaches
  `return ErrorResponse(error=result["detail"], status_code=...)` (lines
  446-454).  `ErrorResponse.error` is a pydantic-v2 `str` field
  (types.py line 127), which accepts only `str` input: a truthy string detail
  is returned normally as the Error variant, while a truthy non-string detail
  (list, number, mapping, `True`) makes the constructor raise a
  `ValidationError` that no handler catches (the excepts cover only httpx
  exceptions).
* `"detail" not in result` returns `SuccessResponse(result, True,
  status_code)` (lines 456-460).
* Otherwise (a `detail` key bound to a falsy value) control falls through to
  the trailing `return ErrorResponse("Unexpected error", 500)` (lines 476-480),
  whose fixed string argument always validates.
-/
def normalize_response (status_code : Nat)
    (parsed : Except String (List (String × JsonVal))) :
    Except PyError JSONResponseTypes :=
  match parsed with
  | .error e =>
      .error (.baseRequestException ("Failed to parse response JSON: " ++ e) status_code)
  | .ok result =>
      match result.lookup "detail" with
      | some d =>
          if d.truthy then
            match d with
            | .str s => .ok (.err s status_code)
            | _ => .error (.validationError "error")
          else .ok (.err "Unexpected error" 500)
      | none => .ok (.success result true status_code)

/-- Whether a normalization outcome is the Error variant returned normally. -/
def isErrorResponse (r : Except PyError JSONResponseTypes) : Bool :=
  match r with
  | .ok (.err _ _) => true
  | _ => false

/-- C1 counterexample: a response with status code 404 (so >= 400) whose JSON
body is the empty object carries no detail field, and `send_request`
normalizes it to the Success variant, not the Error variant the claim
requires for every status >= 400. -/
theorem claim_C1_counterexample :
    400 ≤ 404 ∧
    normalize_response 404 (.ok []) = .ok (.success [] true 404) ∧
    isErrorResponse (normalize_response 404 (.ok [])) = false :=
  ⟨by decide, rfl, rfl⟩

/-- C1 amended: the status code is never consulted when choosing the variant.
If the parsed body binds `detail` to a non-empty string, `send_request`
returns normally the Error variant carrying that string and the original
status code; if the body has no `detail` key it returns the Success variant
wrapping the payload and the status code, even when the status code is
>= 400.  A truthy non-string `detail` (e.g. the list-shaped detail FastAPI
produces on a 422) is not returned at all: the `ErrorResponse` constructor
raises an uncaught pydantic `ValidationError` on its `str` field. -/
theorem claim_C1_amended :
    ∀ (status_code : Nat) (result : List (String × JsonVal)),
      (∀ s : String, result.lookup "detail" = some (.str s) →
        (JsonVal.str s).truthy = true →
        normalize_response status_code (.ok result) = .ok (.err s status_code)) ∧
      (result.lookup "detail" = none →
        normalize_response status_code (.ok result) =
          .ok (.success result true status_code)) ∧
      (∀ d : JsonVal, result.lookup "detail" = some d → d.truthy = true →
        (∀ s : String, d ≠ .str s) →
        normalize_response status_code (.ok result) =
          .error (.validationError "error")) := by
  intro st result
  refine ⟨?_, ?_, ?_⟩
  · intro s hl ht
    simp [normalize_response, hl, ht]
  · intro hl
    simp [normalize_response, hl]
  · intro d hl ht hns
    cases d with
    | str s => exact absurd rfl (hns s)
    | null => simp [JsonVal.truthy] at ht
    | num n => simp [normalize_response, hl, ht]
    | bool b => simp [normalize_response, hl, ht]
    | obj l => simp [normalize_response, hl, ht]

/-- C1 witness: a 404 with a string `detail` yields the Error variant with the
extracted message and status 404; a 201 with no `detail` yields the Success
variant with the payload and status 201; a 422 with a truthy non-string
`detail` raises the validation error instead of returning an envelope. -/
theorem claim_C1_witness :
    normalize_response 404 (.ok [("detail", .str "Not found")]) =
      .ok (.err "Not found" 404) ∧
    normalize_response 201 (.ok [("id", .str "u1")]) =
      .ok (.success [("id", .str "u1")] true 201) ∧
    normalize_response 422 (.ok [("detail", .num 5)]) =
      .error (.validationError "error") :=
  ⟨(claim_C1_amended 404 [("detail", .str "Not found")]).1 "Not found" rfl (by decide),
   (claim_C1_amended 201 [("id", .str "u1")]).2.1 rfl,
   (claim_C1_amended 422 [("detail", .num 5)]).2.2 (.num 5) rfl (by decide)
     (fun s h => JsonVal.noConfusion h)⟩

/-- C10: whenever the parsed body binds `detail` to a falsy value (empty
string, null, zero, false, empty mapping), neither documented mapping
applies: the result is the Error variant with the fixed message
`Unexpected error` and status code 500, discarding the actual HTTP status
code. -/
theorem claim_C10_falsy_detail :
    ∀ (status_code : Nat) (result : List (String × JsonVal)) (d : JsonVal),
      result.lookup "detail" = some d → d.truthy = false →
      normalize_response status_code (.ok result) =
        .ok (.err "Unexpected error" 500) := by
  intro st result d hl ht
  simp [normalize_response, hl, ht]

/-- C10 witness: a 200 response whose body is an empty-string `detail` is
normalized to the fixed 500 error envelope, discarding the 200. -/
theorem claim_C10_witness :
    normalize_response 200 (.ok [("detail", .str "")]) =
      .ok (.err "Unexpected error" 500) :=
  claim_C10_falsy_detail 200 [("detail", .str "")] (.str "") rfl rfl

/-- Python `lstrip("/")`: drop every leading slash. -/
def lstripSlashes (s : String) : String :=
  String.mk (s.toList.dropWhile (fun c => c == '/'))

/-- Python `rstrip("/")`: drop every trailing slash. -/
def rstripSlashes (s : String) : String :=
  String.mk ((s.toList.reverse.dropWhile (fun c => c == '/')).reverse)

/-- Prefix test on character lists (first argument is the prefix). -/
def listStartsWith : List Char → List Char → Bool
  | [], _ => true
  | _ :: _, [] => false
  | p :: ps, c :: cs => p == c && listStartsWith ps cs

/-- Python `s.startswith(pre)`. -/
def pyStartsWith (s pre : String) : Bool :=
  listStartsWith pre.toList s.toList

/--
`SetRequest._get_url` (request.py lines 277-362), on the path `send_request`
exercises: `service_name` a `ServiceName` member and `route_name` a typed
route, with the per-service ports supplied as configuration
(`ServicesPorts.USERS`/`.AUTHENTICATION`, whose values come from settings and
may be `None` or empty).

* Truthy `params` resolve the route through `RoutesNamespace.get_route`
  (called with the service value string); its `ValueError`s propagate
  (there is no handler around the call).
* Falsy `params` instead take `route_name.lstrip("/")`: the template with
  every leading slash removed.
* The `if not service_name and not route_name` 404 guard (lines 324-329) can
  never fire on this path (both values are non-empty strings) and is omitted.
* The base URL gains an `http://` prefix unless it starts with `http://` or
  `https://`, then loses trailing slashes.
* The port lookup `getattr(ServicesPorts, service_name)` always succeeds
  (both members exist), so the `except AttributeError` at lines 342-347 is
  unreachable; a falsy port value reaches the trailing 503 raise.  The final
  URL is the f-string `base:port` followed directly by the route string with
  no separator added.
-/
def get_url (base_url : String) (portUsers portAuth : Option String)
    (service_name : ServiceName) (route_name : TypedRoute)
    (params : Option (List (String × String))) : Except PyError String :=
  let routeRes : Except PyError String :=
    if paramsTruthy params then
      get_route (.str service_name.value) (.typed route_name) params
    else
      .ok (lstripSlashes route_name.value)
  match routeRes with
  | .error e => .error e
  | .ok route =>
      let base1 :=
        if pyStartsWith base_url "http://" || pyStartsWith base_url "https://" then
          base_url
        else
          "http://" ++ base_url
      let base2 := rstripSlashes base1
      let service_port : Option String :=
        match service_name with
        | .USERS => portUsers
        | .AUTHENTICATION => portAuth
      match service_port with
      | some p =>
          if p.toList.isEmpty then
            .error (.baseRequestException
              ("Service port not found for service " ++ service_name.value) 503)
          else
            .ok (base2 ++ ":" ++ p ++ route)
      | none =>
          .error (.baseRequestException
            ("Service port not found for service " ++ service_name.value) 503)

/-- C2: evaluating `_get_url` at the failing input — base URL `localhost`,
USERS port `8001`, route `CREATE_USER`, no params.  The leading slash of the
template is stripped by `lstrip("/")` and never re-added, so the URL has no
separator between the port and the path, instead of the
`http://localhost:8001/users/create` the claim (and the repository test
asserting `"/users/create" in url`) requires. -/
theorem claim_C2_missing_slash :
    get_url "localhost" (some "8001") (some "8002") .USERS (.users .CREATE_USER) none =
      .ok "http://localhost:8001users/create" := by
  rfl

/-- The outgoing HTTP request as assembled by `send_request` for
`client.request(method=..., url=..., json=..., data=...)` (request.py lines
413-430).  The call passes no query-parameter argument and no headers, so the
request consists of exactly these four pieces. -/
structure OutgoingRequest where
  method : String
  url : String
  jsonBody : Option (List (String × String))
  dataBody : Option (List (String × String))
  deriving DecidableEq, Repr

/-- The verb list `["POST", "PUT", "PATCH"]` of the body-encoding conditions. -/
def bodyMethods : List String := ["POST", "PUT", "PATCH"]

/-- The `json=` argument of the network call: the dumped body when the verb
allows a body, a body is present and `form_data` is not set; `None` otherwise. -/
def jsonArg (m : HttpMethods) (request_data : Option (List (String × String)))
    (form_data : Bool) : Option (List (String × String)) :=
  if bodyMethods.contains m.value && request_data.isSome && !form_data then
    request_data
  else
    none

/-- The `data=` argument of the network call: the dumped body when the verb
allows a body, a body is present and `form_data` is set; `None` otherwise. -/
def dataArg (m : HttpMethods) (request_data : Option (List (String × String)))
    (form_data : Bool) : Option (List (String × String)) :=
  if bodyMethods.contains m.value && request_data.isSome && form_data then
    request_data
  else
    none

/-- Outcome of the network call, supplied as an oracle: a transport timeout,
another transport failure, or a response with a status code and the result of
parsing its body as JSON. -/
inductive NetResult
  | timeout (msg : String)
  | requestError (msg : String)
  | response (status_code : Nat) (body : Except String (List (String × JsonVal)))

/-- Observable steps of one `send_request` invocation, in execution order:
the method validation, the URL construction, and the network call carrying
the assembled outgoing request. -/
inductive Event
  | validateMethod
  | buildUrl
  | networkCall (req : OutgoingRequest)
  deriving DecidableEq, Repr

/--
`SetRequest.send_request` (request.py lines 364-480) as a function of the
configuration, the call arguments and a network oracle, returning the result
together with the trace of steps performed.

* `validate_http_method` runs first; its failure aborts the call with only
  the validation step performed (lines 399-401).
* `_get_url` runs next, with `params` equal to the dumped request body when
  one is present (line 406); its failure aborts with no network step.
* The outgoing request is assembled with the `json=`/`data=` arguments of
  lines 416-429 and handed to the network; a timeout raises the 504
  `BaseRequestException`, another transport failure the 500 one (lines
  462-474), and a response is normalized by `normalize_response`.
-/
def send_request_model (base_url : String) (portUsers portAuth : Option String)
    (service_name : ServiceName) (route_name : TypedRoute) (route_method : HttpMethods)
    (request_data : Option (List (String × String))) (form_data : Bool)
    (net : OutgoingRequest → NetResult) :
    Except PyError JSONResponseTypes × List Event :=
  match validate_http_method (.typed route_name) route_method with
  | .error e => (.error e, [.validateMethod])
  | .ok _ =>
      match get_url base_url portUsers portAuth service_name route_name request_data with
      | .error e => (.error e, [.validateMethod, .buildUrl])
      | .ok url =>
          let req : OutgoingRequest :=
            { method := route_method.value
              url := url
              jsonBody := jsonArg route_method request_data form_data
              dataBody := dataArg route_method request_data form_data }
          let result : Except PyError JSONResponseTypes :=
            match net req with
            | .timeout m =>
                .error (.baseRequestException ("Request timed out : " ++ m) 504)
            | .requestError m =>
                .error (.baseRequestException ("Request failed: " ++ m) 500)
            | .response st body => normalize_response st body
          (result, [.validateMethod, .buildUrl, .networkCall req])

/-- Any network step in a `send_request` trace carries exactly the assembled
request: the verb string, the constructed URL, and the `json=`/`data=` bodies
chosen by `jsonArg`/`dataArg`. -/
lemma networkCall_mem (base_url : String) (portUsers portAuth : Option String)
    (service_name : ServiceName) (route_name : TypedRoute) (route_method : HttpMethods)
    (request_data : Option (List (String × String))) (form_data : Bool)
    (net : OutgoingRequest → NetResult) (req : OutgoingRequest) :
    Event.networkCall req ∈
      (send_request_model base_url portUsers portAuth service_name route_name route_method
        request_data form_data net).2 →
    req.method = route_method.value ∧
    req.jsonBody = jsonArg route_method request_data form_data ∧
    req.dataBody = dataArg route_method request_data form_data ∧
    get_url base_url portUsers portAuth service_name route_name request_data =
      .ok req.url := by
  intro h
  cases hval : validate_http_method (.typed route_name) route_method with
  | error e =>
      simp only [send_request_model, hval] at h
      simp at h
  | ok u =>
      cases hurl : get_url base_url portUsers portAuth service_name route_name request_data with
      | error e =>
          simp only [send_request_model, hval, hurl] at h
          simp at h
      | ok url =>
          simp only [send_request_model, hval, hurl] at h
          simp at h
          subst h
          exact ⟨rfl, rfl, rfl, rfl⟩

/-- A verb different from the recorded one makes `validate_http_method` fail
with the mismatch `ValueError`. -/
lemma validate_mismatch : ∀ (r : TypedRoute) (m : HttpMethods), m ≠ catalogVerb r →
    validate_http_method (.typed r) m =
      .error (.valueError (mismatchMsg r.enumName m.value (catalogVerb r).value)) := by
  decide

/-- C9: within one `send_request` invocation the method validation completes
before any URL construction or network step: a verb not matching the route
aborts the call with the mismatch fault after a trace consisting of the
validation step only, so no network call is ever performed. -/
theorem claim_C9_validation_before_network :
    ∀ (base_url : String) (portUsers portAuth : Option String)
      (service_name : ServiceName) (route_name : TypedRoute)
      (route_method : HttpMethods)
      (request_data : Option (List (String × String))) (form_data : Bool)
      (net : OutgoingRequest → NetResult),
      route_method ≠ catalogVerb route_name →
      send_request_model base_url portUsers portAuth service_name route_name
          route_method request_data form_data net =
        (.error (.valueError (mismatchMsg route_name.enumName route_method.value
            (catalogVerb route_name).value)), [.validateMethod]) ∧
      (∀ req, Event.networkCall req ∉
        (send_request_model base_url portUsers portAuth service_name route_name
          route_method request_data form_data net).2) := by
  intro base pu pa svc r m rd fd net h
  have hv := validate_mismatch r m h
  constructor
  · simp only [send_request_model, hv]
  · intro req hmem
    simp only [send_request_model, hv] at hmem
    simp at hmem

/-- C9 witness: Scenario C — `send(USERS, CREATE_USER, GET, ...)` fails with
the mismatch fault (expected POST, got GET) and its trace is the validation
step alone. -/
theorem claim_C9_witness :
    send_request_model "localhost" (some "8001") (some "8002") .USERS
        (.users .CREATE_USER) .GET none false (fun _ => .response 200 (.ok [])) =
      (.error (.valueError (mismatchMsg "CREATE_USER" "GET" "POST")),
        [.validateMethod]) :=
  (claim_C9_validation_before_network "localhost" (some "8001") (some "8002") .USERS
    (.users .CREATE_USER) .GET none false (fun _ => .response 200 (.ok []))
    (by decide)).1

/-- C3 counterexample: `send(USERS, GET_USER_BY_ID, GET, {id: 42})` performs
its network call on the URL with `42` substituted into the path and with no
JSON body, no form body and no query string: the URL contains no `?` or `&`
and the parameters appear only as the substituted path segment, falsifying
the claim that GET parameters are attached as a query string. -/
theorem claim_C3_counterexample :
    (send_request_model "localhost" (some "8001") (some "8002") .USERS
        (.users .GET_USER_BY_ID) .GET (some [("id", "42")]) false
        (fun _ => .response 200 (.ok []))).2 =
      [.validateMethod, .buildUrl,
       .networkCall { method := "GET", url := "http://localhost:8001/users/get/42",
                      jsonBody := none, dataBody := none }] ∧
    ("http://localhost:8001/users/get/42".toList.contains '?') = false ∧
    ("http://localhost:8001/users/get/42".toList.contains '&') = false := by
  exact ⟨rfl, rfl, rfl⟩

/-- C3 amended: for every GET `send_request` invocation, the supplied
parameters are consumed by URL construction (path-template substitution via
`_get_url`); the outgoing request attaches no JSON body and no form body, and
its URL is exactly the `_get_url` result — the network call receives no query
string argument at all. -/
theorem claim_C3_amended :
    ∀ (base_url : String) (portUsers portAuth : Option String)
      (service_name : ServiceName) (route_name : TypedRoute)
      (request_data : Option (List (String × String))) (form_data : Bool)
      (net : OutgoingRequest → NetResult) (req : OutgoingRequest),
      Event.networkCall req ∈
        (send_request_model base_url portUsers portAuth service_name route_name
          .GET request_data form_data net).2 →
      req.jsonBody = none ∧ req.dataBody = none ∧
      get_url base_url portUsers portAuth service_name route_name request_data =
        .ok req.url := by
  intro base pu pa svc r rd fd net req h
  obtain ⟨_, hj, hd, hu⟩ := networkCall_mem base pu pa svc r .GET rd fd net req h
  refine ⟨?_, ?_, hu⟩
  · rw [hj]
    rfl
  · rw [hd]
    rfl

/-- C3 amended witness: the concrete GET invocation of the counterexample has
no JSON body, no form body, and the substituted-path URL. -/
theorem claim_C3_witness :
    OutgoingRequest.jsonBody
      { method := "GET", url := "http://localhost:8001/users/get/42",
        jsonBody := none, dataBody := none } = none ∧
    OutgoingRequest.dataBody
      { method := "GET", url := "http://localhost:8001/users/get/42",
        jsonBody := none, dataBody := none } = none ∧
    get_url "localhost" (some "8001") (some "8002") .USERS (.users .GET_USER_BY_ID)
        (some [("id", "42")]) =
      .ok "http://localhost:8001/users/get/42" :=
  claim_C3_amended "localhost" (some "8001") (some "8002") .USERS
    (.users .GET_USER_BY_ID) (some [("id", "42")]) false
    (fun _ => .response 200 (.ok []))
    { method := "GET", url := "http://localhost:8001/users/get/42",
      jsonBody := none, dataBody := none }
    (by decide)

/-- C8: for every `send_request` invocation, a GET call with no body attaches
no request body at all, and a POST/PUT/PATCH call with a body attaches
exactly one of the JSON body or the form body — never both — with the choice
determined by the `form_data` flag. -/
theorem claim_C8_body_exclusivity :
    ∀ (base_url : String) (portUsers portAuth : Option String)
      (service_name : ServiceName) (route_name : TypedRoute) (form_data : Bool)
      (net : OutgoingRequest → NetResult),
      (∀ req, Event.networkCall req ∈
          (send_request_model base_url portUsers portAuth service_name route_name
            .GET none form_data net).2 →
        req.jsonBody = none ∧ req.dataBody = none) ∧
      (∀ (m : HttpMethods) (d : List (String × String)) (req : OutgoingRequest),
        (m = .POST ∨ m = .PUT ∨ m = .PATCH) →
        Event.networkCall req ∈
          (send_request_model base_url portUsers portAuth service_name route_name
            m (some d) form_data net).2 →
        (form_data = false → req.jsonBody = some d ∧ req.dataBody = none) ∧
        (form_data = true → req.jsonBody = none ∧ req.dataBody = some d)) := by
  intro base pu pa svc r fd net
  constructor
  · intro req h
    obtain ⟨_, hj, hd, _⟩ := networkCall_mem base pu pa svc r .GET none fd net req h
    constructor
    · rw [hj]
      rfl
    · rw [hd]
      rfl
  · intro m d req hm h
    obtain ⟨_, hj, hd, _⟩ := networkCall_mem base pu pa svc r m (some d) fd net req h
    have hbm : bodyMethods.contains m.value = true := by
      rcases hm with hm | hm | hm <;> subst hm <;> decide
    have hbm2 : m.value ∈ bodyMethods := by
      rcases hm with hm | hm | hm <;> subst hm <;> decide
    constructor
    · intro hf
      subst hf
      constructor
      · rw [hj]
        simp [jsonArg, hbm, hbm2]
      · rw [hd]
        simp [dataArg]
    · intro hf
      subst hf
      constructor
      · rw [hj]
        simp [jsonArg]
      · rw [hd]
        simp [dataArg, hbm, hbm2]

/-- C8 witness: a GET HEALTH call with no body attaches neither body, and a
POST CREATE_USER call with a body and `form_data = false` attaches exactly
the JSON body. -/
theorem claim_C8_witness :
    (OutgoingRequest.jsonBody
        { method := "GET", url := "http://localhost:8001health",
          jsonBody := none, dataBody := none } = none ∧
      OutgoingRequest.dataBody
        { method := "GET", url := "http://localhost:8001health",
          jsonBody := none, dataBody := none } = none) ∧
    (OutgoingRequest.jsonBody
        { method := "POST", url := "http://localhost:8001/users/create",
          jsonBody := some [("login", "alice")], dataBody := none } =
        some [("login", "alice")] ∧
      OutgoingRequest.dataBody
        { method := "POST", url := "http://localhost:8001/users/create",
          jsonBody := some [("login", "alice")], dataBody := none } = none) :=
  ⟨(claim_C8_body_exclusivity "localhost" (some "8001") (some "8002") .USERS
      (.users .HEALTH) false (fun _ => .response 200 (.ok []))).1
      { method := "GET", url := "http://localhost:8001health",
        jsonBody := none, dataBody := none }
      (by decide),
   ((claim_C8_body_exclusivity "localhost" (some "8001") (some "8002") .USERS
      (.users .CREATE_USER) false (fun _ => .response 200 (.ok []))).2
      .POST [("login", "alice")]
      { method := "POST", url := "http://localhost:8001/users/create",
        jsonBody := some [("login", "alice")], dataBody := none }
      (Or.inl rfl) (by decide)).1 rfl⟩
